import Mathlib

/-!
Shallow embedding of the revenue-data-analysis repository (three Python jobs):
  * `scripts/data_validator.py` — in-memory cross-table validation producing
    human-readable issue strings;
  * `src/data_loader.py` — transactional bulk insert with identity-insert
    toggling and optional truncation;
  * `scripts/data_quality.py` — SQL-side quality checks writing audit rows.

Pandas cells are modelled as `Cell` (`null` for NaN, integer data, raw string
data).  `pd.to_numeric(..., errors="coerce")` is modelled by `Cell.toNumeric`
(parse failure yields `none`).  Python f-string rendering of a cell is
`Cell.fstr`; the `:.0f` format specifier, which raises `ValueError` on a
`str` value, is `Cell.fmtDot0f` returning `Except`.  Fallible code is
embedded in the `Except String` monad.
-/

/-- Digit value of a character, `none` when not a decimal digit. -/
def digitVal (c : Char) : Option Nat :=
  if c.isDigit then some (c.toNat - Char.toNat '0') else none

/-- Accumulating decimal parser over a character list; `none` accumulator
means no digit has been consumed yet. -/
def parseNatChars : List Char → Option Nat → Option Nat
  | [], acc => acc
  | c :: cs, acc =>
    match digitVal c, acc with
    | some d, some n => parseNatChars cs (some (n * 10 + d))
    | some d, none => parseNatChars cs (some d)
    | none, _ => none

/-- Parse a string as a (possibly negated) decimal integer, `none` on any
non-numeric garbage.  Models the successful/failing outcomes of
`pd.to_numeric` on integer-valued data. -/
def parseIntString (s : String) : Option Int :=
  match s.data with
  | '-' :: rest => (parseNatChars rest none).map (fun n => -(n : Int))
  | chars => (parseNatChars chars none).map (fun n => (n : Int))

/-- A pandas cell after `read_csv`: NaN (from the `NULL` token or a missing
value), an integer-valued numeric, or a raw string. -/
inductive Cell where
  | null : Cell
  | int : Int → Cell
  | str : String → Cell
  deriving DecidableEq

/-- `pd.isnull` on a single cell. -/
def Cell.isnull : Cell → Bool
  | Cell.null => true
  | _ => false

/-- `pd.to_numeric(..., errors="coerce")` on a single cell: NaN stays absent,
integers pass through, strings parse or coerce to NaN (`none`). -/
def Cell.toNumeric : Cell → Option Int
  | Cell.null => none
  | Cell.int n => some n
  | Cell.str s => parseIntString s

/-- Python `f"{v}"` rendering of a cell (NaN prints as `nan`). -/
def Cell.fstr : Cell → String
  | Cell.null => "nan"
  | Cell.int n => toString n
  | Cell.str s => s

/-- Python `f"{v:.0f}"` rendering: works for NaN and numbers, raises
`ValueError` for a `str` value (format code `f` is invalid for `str`). -/
def Cell.fmtDot0f : Cell → Except String String
  | Cell.null => Except.ok "nan"
  | Cell.int n => Except.ok (toString n)
  | Cell.str _ => Except.error "Unknown format code f for object of type str"

/-- `pd.to_numeric(cell).isin(valid)`: `false` when coercion yields NaN. -/
def isinCoerced (c : Cell) (valid : List Int) : Bool :=
  match c.toNumeric with
  | some v => valid.contains v
  | none => false

/-- One row of the invoices table as the validator reads it
(columns `ReNummer`, `KdNr`). -/
structure InvoiceRow where
  ReNummer : Cell
  KdNr : Cell
  deriving DecidableEq

/-- One row of the positions table as the validator reads it
(columns `id`, `ReId`, `KdNr`, `Bildnummer`). -/
structure PositionRow where
  id : Cell
  ReId : Cell
  KdNr : Cell
  Bildnummer : Cell
  deriving DecidableEq

/-- One row of the customers table (column `Kdnr`). -/
structure CustomerRow where
  Kdnr : Cell
  deriving DecidableEq

/-- `set(pd.to_numeric(col, errors="coerce").dropna().astype(int))`:
the distinct successfully-coerced key values of a column. -/
def validIdsFrom (cells : List Cell) : List Int :=
  (cells.filterMap Cell.toNumeric).dedup

/-- Reserved sentinel media ID (`PLACEHOLDER_MEDIA_ID`). -/
def PLACEHOLDER_MEDIA_ID : Int := 100000000

/-- Rule I1 selection: `invoices_df[invoices_df["KdNr"].isnull() |
invoices_df["ReNummer"].isnull()]`, rows paired with their index. -/
def ruleI1sel (invoices_df : List InvoiceRow) : List (Nat × InvoiceRow) :=
  invoices_df.enum.filter (fun r => r.2.KdNr.isnull || r.2.ReNummer.isnull)

/-- Rule I1 issue strings (missing required fields). -/
def ruleI1issues (invoices_df : List InvoiceRow) : List String :=
  (ruleI1sel invoices_df).map (fun r =>
    s!"Invoice (ID:{Cell.fstr r.2.ReNummer}, Index:{r.1}): Missing KdNr or ReNummer")

/-- Rule I2 selection: restrict to non-null `KdNr`, then keep rows whose
coerced `KdNr` is not in the valid customer-ID set. -/
def ruleI2sel (invoices_df : List InvoiceRow) (valid_customer_ids : List Int) :
    List (Nat × InvoiceRow) :=
  (invoices_df.enum.filter (fun r => !r.2.KdNr.isnull)).filter
    (fun r => !isinCoerced r.2.KdNr valid_customer_ids)

/-- Rule I2 issue strings; the `{row['KdNr']:.0f}` format can raise. -/
def ruleI2issues (invoices_df : List InvoiceRow) (valid_customer_ids : List Int) :
    Except String (List String) :=
  (ruleI2sel invoices_df valid_customer_ids).mapM (fun r =>
    (Cell.fmtDot0f r.2.KdNr).map (fun k =>
      s!"Invoice {Cell.fstr r.2.ReNummer}: Invalid KdNr {k}"))

/-- `perform_invoice_checks`: rule I1 issues followed by rule I2 issues;
propagates the `ValueError` a `:.0f` format may raise. -/
def perform_invoice_checks (invoices_df : List InvoiceRow)
    (valid_customer_ids : List Int) : Except String (List String) := do
  let invalidIssues ← ruleI2issues invoices_df valid_customer_ids
  return ruleI1issues invoices_df ++ invalidIssues

/-- Rule P1 selection: `positions_df[positions_df["ReId"].isnull()]`. -/
def ruleP1sel (positions_df : List PositionRow) : List (Nat × PositionRow) :=
  positions_df.enum.filter (fun r => r.2.ReId.isnull)

/-- Rule P1 issue strings (missing invoice reference). -/
def ruleP1issues (positions_df : List PositionRow) : List String :=
  (ruleP1sel positions_df).map (fun r =>
    s!"Position (ID:{Cell.fstr r.2.id}, Index:{r.1}): Missing ReId")

/-- Rule P2 selection: non-null `ReId` whose coerced value is not a valid
invoice ID. -/
def ruleP2sel (positions_df : List PositionRow) (valid_invoice_ids : List Int) :
    List (Nat × PositionRow) :=
  (positions_df.enum.filter (fun r => !r.2.ReId.isnull)).filter
    (fun r => !isinCoerced r.2.ReId valid_invoice_ids)

/-- Rule P2 issue strings; the `{row['ReId']:.0f}` format can raise. -/
def ruleP2issues (positions_df : List PositionRow) (valid_invoice_ids : List Int) :
    Except String (List String) :=
  (ruleP2sel positions_df valid_invoice_ids).mapM (fun r =>
    (Cell.fmtDot0f r.2.ReId).map (fun v =>
      s!"Position {Cell.fstr r.2.id}: Invalid ReId {v}"))

/-- Rule P3 selection: non-null `KdNr` whose coerced value is not a valid
customer ID. -/
def ruleP3sel (positions_df : List PositionRow) (valid_customer_ids : List Int) :
    List (Nat × PositionRow) :=
  (positions_df.enum.filter (fun r => !r.2.KdNr.isnull)).filter
    (fun r => !isinCoerced r.2.KdNr valid_customer_ids)

/-- Rule P3 issue strings; the `{row['KdNr']:.0f}` format can raise. -/
def ruleP3issues (positions_df : List PositionRow) (valid_customer_ids : List Int) :
    Except String (List String) :=
  (ruleP3sel positions_df valid_customer_ids).mapM (fun r =>
    (Cell.fmtDot0f r.2.KdNr).map (fun v =>
      s!"Position {Cell.fstr r.2.id}: Invalid KdNr {v}"))

/-- Rule P4 selection: coerced `Bildnummer` equal to the placeholder
(NaN compares unequal). -/
def ruleP4sel (positions_df : List PositionRow) : List (Nat × PositionRow) :=
  positions_df.enum.filter (fun r => r.2.Bildnummer.toNumeric == some PLACEHOLDER_MEDIA_ID)

/-- Rule P4 issue strings (placeholder media warning). -/
def ruleP4issues (positions_df : List PositionRow) : List String :=
  (ruleP4sel positions_df).map (fun r =>
    s!"Position {Cell.fstr r.2.id}: Uses placeholder Bildnummer")

/-- `perform_position_checks`: rules P1, P2, P3, P4 in order. -/
def perform_position_checks (positions_df : List PositionRow)
    (valid_invoice_ids valid_customer_ids : List Int) : Except String (List String) := do
  let invalidReId ← ruleP2issues positions_df valid_invoice_ids
  let invalidKdNr ← ruleP3issues positions_df valid_customer_ids
  return ruleP1issues positions_df ++ invalidReId ++ invalidKdNr ++ ruleP4issues positions_df

/-- `perform_validation_checks`: build the two lookup sets, then invoice
checks followed by position checks. -/
def perform_validation_checks (invoices_df : List InvoiceRow)
    (positions_df : List PositionRow) (customers_df : List CustomerRow) :
    Except String (List String) := do
  let valid_customer_ids := validIdsFrom (customers_df.map CustomerRow.Kdnr)
  let valid_invoice_ids := validIdsFrom (invoices_df.map InvoiceRow.ReNummer)
  let invoice_issues ← perform_invoice_checks invoices_df valid_customer_ids
  let position_issues ← perform_position_checks positions_df valid_invoice_ids valid_customer_ids
  return invoice_issues ++ position_issues

/-- `issues[i]` for an in-range index (the code only indexes below the
length). -/
def getIssue (issues : List String) (i : Nat) : String :=
  issues.getD i ""

/-- `print_discovered_issues`: the sequence of printed lines — a summary
line followed by the first `min top len` issues, each with a 1-based rank,
or the explicit no-issues line. -/
def print_discovered_issues (issues : List String) (top : Nat) : List String :=
  if issues.length ≠ 0 then
    let actual_top := min top issues.length
    s!"Validation identified {issues.length} potential issues, printing top {actual_top}:" ::
      (List.range actual_top).map (fun i => s!"#{i + 1}: {getIssue issues i}")
  else
    ["No issues identified by simple validation."]

/-- `print_discovered_issues` with its default `top=10`. -/
def print_discovered_issues_default (issues : List String) : List String :=
  print_discovered_issues issues 10

/-!
Loader (`src/data_loader.py`).  `exec_insert_transaction` runs inside
`with connection.begin()`.  The destination table's rows are transactional
state (rolled back if the block raises); `SET IDENTITY_INSERT` is a
session-level setting that survives a rollback; the log records every SQL
statement the connection executed, in order.  Whether `DataFrame.to_sql`
fails, and with which error, is an input (`insertFailure`). -/

/-- One SQL statement executed on the loader connection. -/
inductive SqlStmt where
  | truncateTable : String → SqlStmt
  | setIdentityInsert : String → Bool → SqlStmt
  | bulkInsert : String → Nat → SqlStmt
  deriving DecidableEq

/-- Observable state of the loader connection: destination-table contents,
the session's identity-insert setting, and the executed-statement log. -/
structure LoaderState where
  tableRows : List (List Cell)
  identityInsert : Bool
  execLog : List SqlStmt
  deriving DecidableEq

/-- Execute `TRUNCATE TABLE schema.table;`. -/
def execTruncate (s : LoaderState) (tbl : String) : LoaderState :=
  { s with tableRows := [], execLog := s.execLog ++ [SqlStmt.truncateTable tbl] }

/-- Execute `SET IDENTITY_INSERT schema.table ON/OFF;` (a session setting,
not undone by transaction rollback). -/
def execSetIdentityInsert (s : LoaderState) (tbl : String) (enabled : Bool) : LoaderState :=
  { s with identityInsert := enabled,
           execLog := s.execLog ++ [SqlStmt.setIdentityInsert tbl enabled] }

/-- `DataFrame.to_sql(..., if_exists="append")`: append all rows, or raise
the given database error. -/
def execToSql (s : LoaderState) (tbl : String) (data : List (List Cell))
    (failure : Option String) : LoaderState × Except String Unit :=
  match failure with
  | none => ({ s with tableRows := s.tableRows ++ data,
                      execLog := s.execLog ++ [SqlStmt.bulkInsert tbl data.length] },
             Except.ok ())
  | some e => (s, Except.error e)

/-- `with connection.begin():` — commit on normal exit; on an exception,
roll the transactional state (table rows) back to its value at entry,
keep session state and the statement log, and re-raise. -/
def withBegin (s : LoaderState)
    (body : LoaderState → LoaderState × Except String Unit) :
    LoaderState × Except String Unit :=
  match body s with
  | (s1, Except.ok _) => (s1, Except.ok ())
  | (s1, Except.error e) => ({ s1 with tableRows := s.tableRows }, Except.error e)

/-- `exec_insert_transaction`: inside one transaction, optionally truncate,
set identity-insert ON, attempt the bulk append (`try`), and in a `finally`
set identity-insert OFF before the error, if any, propagates. -/
def exec_insert_transaction (connection : LoaderState) (data : List (List Cell))
    (table_name table_schema : String) (truncate_table : Bool)
    (insertFailure : Option String) : LoaderState × Except String Unit :=
  withBegin connection (fun s0 =>
    let qualified := s!"{table_schema}.{table_name}"
    let s1 := if truncate_table then execTruncate s0 qualified else s0
    let s2 := execSetIdentityInsert s1 qualified true
    match execToSql s2 table_name data insertFailure with
    | (s3, Except.ok _) => (execSetIdentityInsert s3 qualified false, Except.ok ())
    | (s3, Except.error e) => (execSetIdentityInsert s3 qualified false, Except.error e))

/-!
Quality checker (`scripts/data_quality.py`).  The already-loaded SQL tables
are typed: `ReNummer` and `id` are non-null keys, the reference and payment
columns are nullable.  SQL `=` never matches a NULL operand, which the
`Option` equalities below reproduce. -/

/-- One row of `Abrechnung_Rechnungen` as the quality checker reads it. -/
structure DbInvoice where
  ReNummer : Int
  Zahlungsdatum : Option String
  ZahlungsbetragBrutto : Option Int
  deriving DecidableEq

/-- One row of `Abrechnung_Positionen` as the quality checker reads it. -/
structure DbPosition where
  id : Int
  ReId : Option Int
  KdNr : Option Int
  Bildnummer : Option Int
  deriving DecidableEq

/-- One row of the audit table `Abrechnung_Data_Quality`. -/
structure AuditRow where
  TableName : String
  RecordId : Int
  IssueType : String
  Notes : String
  deriving DecidableEq

/-- Database state the quality checker reads and writes. -/
structure QualityDb where
  invoices : List DbInvoice
  positions : List DbPosition
  audit : List AuditRow
  deriving DecidableEq

/-- `insert_bulk_data`: batch-insert audit rows into
`Abrechnung_Data_Quality`. -/
def insert_bulk_data (db : QualityDb) (bulk_data : List AuditRow) : QualityDb :=
  { db with audit := db.audit ++ bulk_data }

/-- The missing-payment join: `SELECT AP.id FROM Abrechnung_Positionen AP
JOIN Abrechnung_Rechnungen AR ON AP.ReId = AR.ReNummer WHERE
AR.Zahlungsdatum IS NULL OR AR.ZahlungsbetragBrutto IS NULL` — one result
row per matching (position, invoice) pair. -/
def missing_payment_positions (db : QualityDb) : List DbPosition :=
  db.positions.flatMap (fun p =>
    (db.invoices.filter (fun inv =>
      p.ReId == some inv.ReNummer &&
        (inv.Zahlungsdatum.isNone || inv.ZahlungsbetragBrutto.isNone))).map
      (fun _ => p))

/-- `perform_payment_quality_check`: log one `missing_payment` audit row per
join result and return how many were logged. -/
def perform_payment_quality_check (db : QualityDb) : QualityDb × Nat :=
  let bulk_data := (missing_payment_positions db).map (fun p =>
    AuditRow.mk "Abrechnung_Positionen" p.id "missing_payment"
      "Position linked to invoice without payment data")
  (if bulk_data.isEmpty then db else insert_bulk_data db bulk_data, bulk_data.length)

/-- `SELECT id FROM Abrechnung_Positionen WHERE Bildnummer = :media_id`
(a NULL `Bildnummer` never matches). -/
def placeholder_positions (db : QualityDb) : List DbPosition :=
  db.positions.filter (fun p => p.Bildnummer == some PLACEHOLDER_MEDIA_ID)

/-- `perform_media_quality_check`: log one `placeholder_media` audit row per
placeholder position and return how many were logged. -/
def perform_media_quality_check (db : QualityDb) : QualityDb × Nat :=
  let bulk_data := (placeholder_positions db).map (fun p =>
    AuditRow.mk "Abrechnung_Positionen" p.id "placeholder_media"
      "Position using placeholder media ID")
  (if bulk_data.isEmpty then db else insert_bulk_data db bulk_data, bulk_data.length)

/-- The empty-invoice left join: invoices with no position whose `ReId`
equals their `ReNummer` (left-join row with NULL `AP.id`). -/
def empty_invoices (db : QualityDb) : List DbInvoice :=
  db.invoices.filter (fun inv =>
    !(db.positions.any (fun p => p.ReId == some inv.ReNummer)))

/-- `perform_invoices_quality_checks`: log one `empty_invoice` audit row per
orphan invoice and return how many were logged. -/
def perform_invoices_quality_checks (db : QualityDb) : QualityDb × Nat :=
  let bulk_data := (empty_invoices db).map (fun inv =>
    AuditRow.mk "Abrechnung_Rechnungen" inv.ReNummer "empty_invoice"
      "Invoice has no associated positions")
  (if bulk_data.isEmpty then db else insert_bulk_data db bulk_data, bulk_data.length)

/-- `perform_data_quality_checks`: run the three checks in order on the same
connection and report the summed total. -/
def perform_data_quality_checks (db : QualityDb) : QualityDb × Nat :=
  let r1 := perform_payment_quality_check db
  let r2 := perform_media_quality_check r1.1
  let r3 := perform_invoices_quality_checks r2.1
  (r3.1, r1.2 + r2.2 + r3.2)

/-- `SELECT` condition of the missing-payment join seen from one position:
some invoice matches its `ReId` and lacks a payment date or amount. -/
def unpaid_ref (db : QualityDb) (p : DbPosition) : Bool :=
  db.invoices.any (fun inv =>
    p.ReId == some inv.ReNummer &&
      (inv.Zahlungsdatum.isNone || inv.ZahlungsbetragBrutto.isNone))

/-!
Helper lemmas: how often a given source-row index occurs in a filtered
enumeration (`df[pred].iterrows()`), and that such an enumeration preserves
source-table order. -/

lemma countP_enumFrom_idx_lt {α : Type} (q : Nat × α → Bool) (l : List α)
    (j idx : Nat) (hj : idx < j) :
    (List.enumFrom j l).countP (fun r => (r.1 == idx) && q r) = 0 := by
  induction l generalizing j with
  | nil => simp
  | cons a l ih =>
    rw [List.enumFrom_cons, List.countP_cons]
    have hne : (j == idx) = false := by simp; omega
    simp [hne, ih (j + 1) (by omega)]

lemma countP_enumFrom_idx {α : Type} (q : Nat × α → Bool) (l : List α)
    (i idx : Nat) (row : α) (hle : i ≤ idx) (h : l[idx - i]? = some row) :
    (List.enumFrom i l).countP (fun r => (r.1 == idx) && q r) =
      if q (idx, row) then 1 else 0 := by
  induction l generalizing i with
  | nil => simp at h
  | cons a l ih =>
    by_cases hi : i = idx
    · subst hi
      simp only [Nat.sub_self, List.getElem?_cons_zero, Option.some.injEq] at h
      rw [List.enumFrom_cons, List.countP_cons,
        countP_enumFrom_idx_lt q l (i + 1) i (by omega)]
      simp [h]
    · have hsub : idx - i = (idx - (i + 1)) + 1 := by omega
      rw [hsub, List.getElem?_cons_succ] at h
      rw [List.enumFrom_cons, List.countP_cons]
      have hne : (i == idx) = false := by simp [hi]
      simp only [hne, Bool.false_and, if_false, Nat.add_zero]
      exact ih (i + 1) (by omega) h

lemma countP_enum_idx {α : Type} (q : Nat × α → Bool) (l : List α)
    (idx : Nat) (row : α) (h : l[idx]? = some row) :
    l.enum.countP (fun r => (r.1 == idx) && q r) = if q (idx, row) then 1 else 0 := by
  have := countP_enumFrom_idx q l 0 idx row (Nat.zero_le _) (by simpa using h)
  simpa [List.enum] using this

lemma countP_idx_filter_enum {α : Type} (q : Nat × α → Bool) (l : List α)
    (idx : Nat) (row : α) (h : l[idx]? = some row) :
    (l.enum.filter q).countP (fun r => r.1 == idx) = if q (idx, row) then 1 else 0 := by
  rw [List.countP_filter]
  exact countP_enum_idx q l idx row h

lemma countP_idx_filter_filter_enum {α : Type} (p q : Nat × α → Bool)
    (l : List α) (idx : Nat) (row : α) (h : l[idx]? = some row) :
    ((l.enum.filter p).filter q).countP (fun r => r.1 == idx) =
      if q (idx, row) && p (idx, row) then 1 else 0 := by
  rw [List.countP_filter, List.countP_filter]
  have := countP_enum_idx (fun r => q r && p r) l idx row h
  simpa [Bool.and_assoc] using this

lemma le_fst_of_mem_enumFrom {α : Type} {p : Nat × α} {i : Nat} {l : List α}
    (h : p ∈ List.enumFrom i l) : i ≤ p.1 := by
  induction l generalizing i with
  | nil => simp at h
  | cons a l ih =>
    rw [List.enumFrom_cons] at h
    rcases List.mem_cons.mp h with h1 | h2
    · simp [h1]
    · have := ih h2
      omega

lemma pairwise_fst_lt_enumFrom {α : Type} (i : Nat) (l : List α) :
    (List.enumFrom i l).Pairwise (fun a b => a.1 < b.1) := by
  induction l generalizing i with
  | nil => simp
  | cons a l ih =>
    rw [List.enumFrom_cons]
    refine List.Pairwise.cons (fun b hb => ?_) (ih (i + 1))
    have := le_fst_of_mem_enumFrom hb
    omega

lemma sorted_fst_filter_enum {α : Type} (q : Nat × α → Bool) (l : List α) :
    List.Sorted (· < ·) ((l.enum.filter q).map Prod.fst) := by
  have hp : (l.enum.filter q).Pairwise (fun a b => a.1 < b.1) :=
    List.Pairwise.filter q (by simpa [List.enum] using pairwise_fst_lt_enumFrom 0 l)
  exact hp.map Prod.fst (fun a b h => h)

lemma sorted_fst_filter_filter_enum {α : Type} (p q : Nat × α → Bool) (l : List α) :
    List.Sorted (· < ·) (((l.enum.filter p).filter q).map Prod.fst) := by
  have hp : ((l.enum.filter p).filter q).Pairwise (fun a b => a.1 < b.1) :=
    List.Pairwise.filter q (List.Pairwise.filter p
      (by simpa [List.enum] using pairwise_fst_lt_enumFrom 0 l))
  exact hp.map Prod.fst (fun a b h => h)

/-- C3 counterexample: an invoice row with non-null `KdNr` (= 5) and null
`ReNummer` IS reported under the invoices' missing-reference rule I1
("Missing KdNr or ReNummer"), so a row whose reference field `KdNr` is
non-null can still be reported under that table's missing-reference rule —
the claimed "non-null is never reported under the missing rule" fails. -/
theorem missing_rule_fires_for_nonnull_kdnr :
    (InvoiceRow.mk Cell.null (Cell.int 5)).KdNr.isnull = false ∧
    ruleI1sel [InvoiceRow.mk Cell.null (Cell.int 5)] =
      [(0, InvoiceRow.mk Cell.null (Cell.int 5))] :=
  ⟨rfl, rfl⟩

/-- C3 (amended): per reference field the null/non-null partition holds in
this form — an invoice row with null `KdNr` is reported exactly once under
rule I1 and never under rule I2; an invoice row with both fields non-null is
never reported under rule I1 (when only `ReNummer` is null the combined rule
I1 still fires, see the counterexample); a position row with null `ReId` is
reported exactly once under rule P1 and never under rule P2, and one with
non-null `ReId` is never reported under rule P1. -/
theorem null_reference_partition (invoices_df : List InvoiceRow)
    (positions_df : List PositionRow)
    (valid_customer_ids valid_invoice_ids : List Int)
    (i : Nat) (row : InvoiceRow) (j : Nat) (prow : PositionRow)
    (hi : invoices_df[i]? = some row) (hj : positions_df[j]? = some prow) :
    (row.KdNr.isnull = true →
      (ruleI1sel invoices_df).countP (fun r => r.1 == i) = 1 ∧
      (ruleI2sel invoices_df valid_customer_ids).countP (fun r => r.1 == i) = 0) ∧
    (row.KdNr.isnull = false → row.ReNummer.isnull = false →
      (ruleI1sel invoices_df).countP (fun r => r.1 == i) = 0) ∧
    (prow.ReId.isnull = true →
      (ruleP1sel positions_df).countP (fun r => r.1 == j) = 1 ∧
      (ruleP2sel positions_df valid_invoice_ids).countP (fun r => r.1 == j) = 0) ∧
    (prow.ReId.isnull = false →
      (ruleP1sel positions_df).countP (fun r => r.1 == j) = 0) := by
  refine ⟨fun hk => ⟨?_, ?_⟩, fun hk hr => ?_, fun hp => ⟨?_, ?_⟩, fun hp => ?_⟩
  · have := countP_idx_filter_enum
      (fun r => r.2.KdNr.isnull || r.2.ReNummer.isnull) invoices_df i row hi
    simpa [ruleI1sel, hk] using this
  · have := countP_idx_filter_filter_enum (fun r => !r.2.KdNr.isnull)
      (fun r => !isinCoerced r.2.KdNr valid_customer_ids) invoices_df i row hi
    simpa [ruleI2sel, hk] using this
  · have := countP_idx_filter_enum
      (fun r => r.2.KdNr.isnull || r.2.ReNummer.isnull) invoices_df i row hi
    simpa [ruleI1sel, hk, hr] using this
  · have := countP_idx_filter_enum (fun r => r.2.ReId.isnull) positions_df j prow hj
    simpa [ruleP1sel, hp] using this
  · have := countP_idx_filter_filter_enum (fun r => !r.2.ReId.isnull)
      (fun r => !isinCoerced r.2.ReId valid_invoice_ids) positions_df j prow hj
    simpa [ruleP2sel, hp] using this
  · have := countP_idx_filter_enum (fun r => r.2.ReId.isnull) positions_df j prow hj
    simpa [ruleP1sel, hp] using this

/-- Witness for the amended C3 partition at a concrete table: an invoice
row `(ReNummer = 1, KdNr = null)` is reported once by rule I1 and never by
rule I2, and a position row with null `ReId` is reported once by rule P1. -/
theorem null_reference_partition_witness :
    (ruleI1sel [InvoiceRow.mk (Cell.int 1) Cell.null]).countP (fun r => r.1 == 0) = 1 ∧
    (ruleI2sel [InvoiceRow.mk (Cell.int 1) Cell.null] [5]).countP (fun r => r.1 == 0) = 0 ∧
    (ruleP1sel [PositionRow.mk (Cell.int 1) Cell.null Cell.null Cell.null]).countP
      (fun r => r.1 == 0) = 1 := by
  have h := null_reference_partition [InvoiceRow.mk (Cell.int 1) Cell.null]
    [PositionRow.mk (Cell.int 1) Cell.null Cell.null Cell.null] [5] [7]
    0 (InvoiceRow.mk (Cell.int 1) Cell.null)
    0 (PositionRow.mk (Cell.int 1) Cell.null Cell.null Cell.null) rfl rfl
  exact ⟨(h.1 rfl).1, (h.1 rfl).2, (h.2.2.1 rfl).1⟩

/-- C4: an invoice row whose `KdNr` is the non-numeric string "abc" coerces
to NaN, is therefore selected by the invalid-reference rule I2 (treated as
not found in the valid set), but building its issue string applies the
`:.0f` format to a `str` value, which raises `ValueError` — so
`perform_invoice_checks` raises instead of returning the finding. -/
theorem invalid_reference_garbage_raises :
    ruleI2sel [InvoiceRow.mk (Cell.int 1) (Cell.str "abc")] [5] =
      [(0, InvoiceRow.mk (Cell.int 1) (Cell.str "abc"))] ∧
    (Cell.str "abc").toNumeric = none ∧
    isinCoerced (Cell.str "abc") [5] = false ∧
    perform_invoice_checks [InvoiceRow.mk (Cell.int 1) (Cell.str "abc")] [5] =
      Except.error "Unknown format code f for object of type str" :=
  ⟨rfl, rfl, rfl, rfl⟩

/-- C10: an invoice row with null `ReNummer` and a non-null `KdNr` that is
not in the valid customer-ID set is reported exactly once by rule I1
(missing required fields) AND exactly once by rule I2 (invalid customer
reference) — two issues for one row; concretely, the single row
`(ReNummer = null, KdNr = 7)` against valid set `{5}` yields exactly those
two issue strings. -/
theorem double_report_missing_and_invalid (invoices_df : List InvoiceRow)
    (valid_customer_ids : List Int) (i : Nat) (row : InvoiceRow)
    (hi : invoices_df[i]? = some row) (hrn : row.ReNummer.isnull = true)
    (hkn : row.KdNr.isnull = false)
    (hkv : isinCoerced row.KdNr valid_customer_ids = false) :
    (ruleI1sel invoices_df).countP (fun r => r.1 == i) = 1 ∧
    (ruleI2sel invoices_df valid_customer_ids).countP (fun r => r.1 == i) = 1 ∧
    perform_invoice_checks [InvoiceRow.mk Cell.null (Cell.int 7)] [5] =
      Except.ok ["Invoice (ID:nan, Index:0): Missing KdNr or ReNummer",
        "Invoice nan: Invalid KdNr 7"] := by
  refine ⟨?_, ?_, rfl⟩
  · have := countP_idx_filter_enum
      (fun r => r.2.KdNr.isnull || r.2.ReNummer.isnull) invoices_df i row hi
    simpa [ruleI1sel, hrn, hkn] using this
  · have := countP_idx_filter_filter_enum (fun r => !r.2.KdNr.isnull)
      (fun r => !isinCoerced r.2.KdNr valid_customer_ids) invoices_df i row hi
    simpa [ruleI2sel, hkn, hkv] using this

/-- Witness for C10 at the concrete row `(ReNummer = null, KdNr = 7)` with
valid customer IDs `{5}`: both rules fire exactly once for row index 0. -/
theorem double_report_missing_and_invalid_witness :
    (ruleI1sel [InvoiceRow.mk Cell.null (Cell.int 7)]).countP (fun r => r.1 == 0) = 1 ∧
    (ruleI2sel [InvoiceRow.mk Cell.null (Cell.int 7)] [5]).countP (fun r => r.1 == 0) = 1 := by
  have h := double_report_missing_and_invalid [InvoiceRow.mk Cell.null (Cell.int 7)] [5]
    0 (InvoiceRow.mk Cell.null (Cell.int 7)) rfl rfl rfl (by decide)
  exact ⟨h.1, h.2.1⟩

/-- C5 counterexample: two identical invoice rows `(ReNummer = 1, KdNr = 7)`
against valid customer IDs `{5}` make `perform_invoice_checks` contribute
two issue strings that are equal, so the check's issue count (2) is NOT the
number of distinct issue strings it contributes (1). -/
theorem duplicate_issue_strings_counted_twice :
    perform_invoice_checks
      [InvoiceRow.mk (Cell.int 1) (Cell.int 7), InvoiceRow.mk (Cell.int 1) (Cell.int 7)]
      [5] =
      Except.ok ["Invoice 1: Invalid KdNr 7", "Invoice 1: Invalid KdNr 7"] ∧
    (["Invoice 1: Invalid KdNr 7", "Invoice 1: Invalid KdNr 7"] : List String).length = 2 ∧
    (["Invoice 1: Invalid KdNr 7", "Invoice 1: Invalid KdNr 7"] : List String).dedup.length = 1 :=
  ⟨rfl, rfl, by decide⟩

lemma payment_audit_growth (db : QualityDb) :
    (perform_payment_quality_check db).1.audit.length =
      db.audit.length + (perform_payment_quality_check db).2 := by
  by_cases hb : missing_payment_positions db = [] <;>
    simp [perform_payment_quality_check, insert_bulk_data, List.isEmpty_iff, hb]

lemma media_audit_growth (db : QualityDb) :
    (perform_media_quality_check db).1.audit.length =
      db.audit.length + (perform_media_quality_check db).2 := by
  by_cases hb : placeholder_positions db = [] <;>
    simp [perform_media_quality_check, insert_bulk_data, List.isEmpty_iff, hb]

lemma invoices_audit_growth (db : QualityDb) :
    (perform_invoices_quality_checks db).1.audit.length =
      db.audit.length + (perform_invoices_quality_checks db).2 := by
  by_cases hb : empty_invoices db = [] <;>
    simp [perform_invoices_quality_checks, insert_bulk_data, List.isEmpty_iff, hb]

/-- C5 (amended): each check's count equals the number of issue strings
(respectively audit rows) it contributes counted WITH multiplicity — equal
issue strings from different rows each count — and the reported grand
totals are the sums of the per-check counts: the validator's total is the
length of invoice issues plus position issues, and the quality checker's
total is the sum of the three per-check counts, each of which is exactly
the number of audit rows that check appended. -/
theorem issue_counts_sum_with_multiplicity (invoices_df : List InvoiceRow)
    (positions_df : List PositionRow) (customers_df : List CustomerRow)
    (invoice_issues position_issues : List String)
    (hi : perform_invoice_checks invoices_df
      (validIdsFrom (customers_df.map CustomerRow.Kdnr)) = Except.ok invoice_issues)
    (hp : perform_position_checks positions_df
      (validIdsFrom (invoices_df.map InvoiceRow.ReNummer))
      (validIdsFrom (customers_df.map CustomerRow.Kdnr)) = Except.ok position_issues) :
    perform_validation_checks invoices_df positions_df customers_df =
      Except.ok (invoice_issues ++ position_issues) ∧
    (invoice_issues ++ position_issues).length =
      invoice_issues.length + position_issues.length ∧
    (∀ db : QualityDb,
      (perform_payment_quality_check db).1.audit.length =
        db.audit.length + (perform_payment_quality_check db).2 ∧
      (perform_media_quality_check db).1.audit.length =
        db.audit.length + (perform_media_quality_check db).2 ∧
      (perform_invoices_quality_checks db).1.audit.length =
        db.audit.length + (perform_invoices_quality_checks db).2 ∧
      (perform_data_quality_checks db).1.audit.length =
        db.audit.length + (perform_data_quality_checks db).2) := by
  refine ⟨?_, List.length_append _ _, fun db => ?_⟩
  · simp [perform_validation_checks, hi, hp, Bind.bind, Except.bind, Pure.pure,
      Except.pure]
  · refine ⟨payment_audit_growth db, media_audit_growth db, invoices_audit_growth db, ?_⟩
    have h1 := payment_audit_growth db
    have h2 := media_audit_growth (perform_payment_quality_check db).1
    have h3 := invoices_audit_growth
      (perform_media_quality_check (perform_payment_quality_check db).1).1
    simp only [perform_data_quality_checks]
    omega

/-- Witness for the amended C5 on a concrete run: one invoice with an
invalid customer reference and one placeholder position. -/
theorem issue_counts_sum_with_multiplicity_witness :
    perform_validation_checks [InvoiceRow.mk (Cell.int 1) (Cell.int 7)]
      [PositionRow.mk (Cell.int 1) (Cell.int 1) Cell.null (Cell.int 100000000)]
      [CustomerRow.mk (Cell.int 5)] =
      Except.ok (["Invoice 1: Invalid KdNr 7"] ++
        ["Position 1: Uses placeholder Bildnummer"]) :=
  (issue_counts_sum_with_multiplicity [InvoiceRow.mk (Cell.int 1) (Cell.int 7)]
    [PositionRow.mk (Cell.int 1) (Cell.int 1) Cell.null (Cell.int 100000000)]
    [CustomerRow.mk (Cell.int 5)]
    ["Invoice 1: Invalid KdNr 7"] ["Position 1: Uses placeholder Bildnummer"]
    rfl rfl).1

/-- C6: whenever `perform_validation_checks` returns an issue list, that
list is exactly the invoice issues (rule I1 then rule I2) followed by the
position issues (rule P1, then P2, then P3, then P4), and within every rule
the selected rows appear in source-table order (their indices are strictly
increasing). -/
theorem validator_emission_order (invoices_df : List InvoiceRow)
    (positions_df : List PositionRow) (customers_df : List CustomerRow)
    (issues : List String)
    (h : perform_validation_checks invoices_df positions_df customers_df =
      Except.ok issues) :
    (∃ invalidKdnrInv invalidReidPos invalidKdnrPos,
      ruleI2issues invoices_df (validIdsFrom (customers_df.map CustomerRow.Kdnr)) =
        Except.ok invalidKdnrInv ∧
      ruleP2issues positions_df (validIdsFrom (invoices_df.map InvoiceRow.ReNummer)) =
        Except.ok invalidReidPos ∧
      ruleP3issues positions_df (validIdsFrom (customers_df.map CustomerRow.Kdnr)) =
        Except.ok invalidKdnrPos ∧
      issues = ruleI1issues invoices_df ++ invalidKdnrInv ++
        ruleP1issues positions_df ++ invalidReidPos ++ invalidKdnrPos ++
        ruleP4issues positions_df) ∧
    (List.Sorted (· < ·) ((ruleI1sel invoices_df).map Prod.fst) ∧
      List.Sorted (· < ·) ((ruleI2sel invoices_df
        (validIdsFrom (customers_df.map CustomerRow.Kdnr))).map Prod.fst) ∧
      List.Sorted (· < ·) ((ruleP1sel positions_df).map Prod.fst) ∧
      List.Sorted (· < ·) ((ruleP2sel positions_df
        (validIdsFrom (invoices_df.map InvoiceRow.ReNummer))).map Prod.fst) ∧
      List.Sorted (· < ·) ((ruleP3sel positions_df
        (validIdsFrom (customers_df.map CustomerRow.Kdnr))).map Prod.fst) ∧
      List.Sorted (· < ·) ((ruleP4sel positions_df).map Prod.fst)) := by
  constructor
  · cases h2 : ruleI2issues invoices_df
      (validIdsFrom (customers_df.map CustomerRow.Kdnr)) with
    | error e =>
      simp [perform_validation_checks, perform_invoice_checks, h2,
        Bind.bind, Except.bind] at h
    | ok invalidKdnrInv =>
      cases h3 : ruleP2issues positions_df
        (validIdsFrom (invoices_df.map InvoiceRow.ReNummer)) with
      | error e =>
        simp [perform_validation_checks, perform_invoice_checks,
          perform_position_checks, h2, h3, Bind.bind, Except.bind,
          Pure.pure, Except.pure] at h
      | ok invalidReidPos =>
        cases h4 : ruleP3issues positions_df
          (validIdsFrom (customers_df.map CustomerRow.Kdnr)) with
        | error e =>
          simp [perform_validation_checks, perform_invoice_checks,
            perform_position_checks, h2, h3, h4, Bind.bind, Except.bind,
            Pure.pure, Except.pure] at h
        | ok invalidKdnrPos =>
          refine ⟨invalidKdnrInv, invalidReidPos, invalidKdnrPos, rfl, rfl, rfl, ?_⟩
          simp [perform_validation_checks, perform_invoice_checks,
            perform_position_checks, h2, h3, h4, Bind.bind, Except.bind,
            Pure.pure, Except.pure] at h
          simp [← h, List.append_assoc]
  · exact ⟨sorted_fst_filter_enum _ invoices_df,
      sorted_fst_filter_filter_enum _ _ invoices_df,
      sorted_fst_filter_enum _ positions_df,
      sorted_fst_filter_filter_enum _ _ positions_df,
      sorted_fst_filter_filter_enum _ _ positions_df,
      sorted_fst_filter_enum _ positions_df⟩

/-- Witness for C6 on a concrete run (one valid invoice, one position with
a placeholder media ID): the rule I1 selection indices are sorted. -/
theorem validator_emission_order_witness :
    List.Sorted (· < ·) ((ruleI1sel [InvoiceRow.mk (Cell.int 1) (Cell.int 5)]).map
      Prod.fst) :=
  (validator_emission_order [InvoiceRow.mk (Cell.int 1) (Cell.int 5)]
    [PositionRow.mk (Cell.int 1) (Cell.int 1) Cell.null (Cell.int 100000000)]
    [CustomerRow.mk (Cell.int 5)]
    ["Position 1: Uses placeholder Bildnummer"] rfl).2.1

/-- C1: after every call to `exec_insert_transaction` — whatever the
truncate flag and whether or not the bulk append fails — the session's
identity-insert setting is OFF, and the `SET IDENTITY_INSERT ... OFF`
statement was actually executed (it is in the connection's statement log),
i.e. the cleanup runs on the success path and on every failure path of the
bulk-append step. -/
theorem exec_insert_transaction_identity_off (connection : LoaderState)
    (data : List (List Cell)) (table_name table_schema : String)
    (truncate_table : Bool) (insertFailure : Option String) :
    (exec_insert_transaction connection data table_name table_schema
        truncate_table insertFailure).1.identityInsert = false ∧
    SqlStmt.setIdentityInsert s!"{table_schema}.{table_name}" false ∈
      (exec_insert_transaction connection data table_name table_schema
        truncate_table insertFailure).1.execLog := by
  cases insertFailure <;> cases truncate_table <;>
    simp [exec_insert_transaction, withBegin, execToSql, execSetIdentityInsert,
      execTruncate]

/-- C2: when the bulk-append step fails, `exec_insert_transaction` re-raises
the original error, the destination table's rows are exactly what they were
before the call (the whole transaction, truncate included, rolls back as a
unit), the identity-insert setting is OFF, and the last statement executed
before the error propagated is the identity-insert cleanup. -/
theorem exec_insert_transaction_failure_atomic (connection : LoaderState)
    (data : List (List Cell)) (table_name table_schema : String)
    (truncate_table : Bool) (e : String) :
    (exec_insert_transaction connection data table_name table_schema
        truncate_table (some e)).2 = Except.error e ∧
    (exec_insert_transaction connection data table_name table_schema
        truncate_table (some e)).1.tableRows = connection.tableRows ∧
    (exec_insert_transaction connection data table_name table_schema
        truncate_table (some e)).1.identityInsert = false ∧
    (exec_insert_transaction connection data table_name table_schema
        truncate_table (some e)).1.execLog.getLast? =
      some (SqlStmt.setIdentityInsert s!"{table_schema}.{table_name}" false) := by
  cases truncate_table <;>
    simp [exec_insert_transaction, withBegin, execToSql, execSetIdentityInsert,
      execTruncate]

/-- C7: the empty-invoice check logs exactly one `empty_invoice` audit row
per invoice with zero matching positions (and touches nothing else), returns
that number, and on the concrete scenario of a single invoice `ReNummer = 1`
with an empty positions table it logs exactly one row with `RecordId = 1`
and returns 1. -/
theorem empty_invoice_check_spec :
    (∀ db : QualityDb,
      (perform_invoices_quality_checks db).2 = (empty_invoices db).length ∧
      (perform_invoices_quality_checks db).1.audit =
        db.audit ++ (empty_invoices db).map (fun inv =>
          AuditRow.mk "Abrechnung_Rechnungen" inv.ReNummer "empty_invoice"
            "Invoice has no associated positions") ∧
      (perform_invoices_quality_checks db).1.invoices = db.invoices ∧
      (perform_invoices_quality_checks db).1.positions = db.positions) ∧
    perform_invoices_quality_checks ⟨[⟨1, none, none⟩], [], []⟩ =
      (⟨[⟨1, none, none⟩], [],
        [AuditRow.mk "Abrechnung_Rechnungen" 1 "empty_invoice"
          "Invoice has no associated positions"]⟩, 1) := by
  refine ⟨fun db => ?_, by rfl⟩
  by_cases hemp : empty_invoices db = [] <;>
    simp [perform_invoices_quality_checks, insert_bulk_data, List.isEmpty_iff, hemp]

lemma flatMap_if_singleton {α : Type} (l : List α) (q : α → Bool) :
    (l.flatMap (fun a => if q a then [a] else [])) = l.filter q := by
  induction l with
  | nil => rfl
  | cons a l ih => by_cases hq : q a <;> simp [List.filter_cons, hq, ih]

lemma filter_key_unique (invoices : List DbInvoice)
    (hn : (invoices.map DbInvoice.ReNummer).Nodup) (k : Option Int)
    (q : DbInvoice → Bool) (p : DbPosition) :
    ((invoices.filter (fun inv => k == some inv.ReNummer && q inv)).map
        (fun _ => p)) =
      if invoices.any (fun inv => k == some inv.ReNummer && q inv) then [p]
      else [] := by
  induction invoices with
  | nil => rfl
  | cons inv invs ih =>
    rw [List.map_cons] at hn
    rw [List.nodup_cons] at hn
    by_cases hc : (k == some inv.ReNummer && q inv) = true
    · have hk : k = some inv.ReNummer := by
        have := (Bool.and_eq_true _ _).mp hc |>.1
        simpa using this
      have htail : invs.filter (fun inv2 => k == some inv2.ReNummer && q inv2) = [] := by
        rw [List.filter_eq_nil_iff]
        intro inv2 h2 hpred
        have hk2 : k = some inv2.ReNummer := by
          have := (Bool.and_eq_true _ _).mp hpred |>.1
          simpa using this
        have heq : inv.ReNummer = inv2.ReNummer := by
          rw [hk] at hk2
          exact Option.some.inj hk2
        exact hn.1 (heq ▸ List.mem_map_of_mem DbInvoice.ReNummer h2)
      simp [List.filter_cons, List.any_cons, hc, htail]
    · simp [List.filter_cons, List.any_cons, hc, ih hn.2]

lemma missing_payment_positions_eq (db : QualityDb)
    (hn : (db.invoices.map DbInvoice.ReNummer).Nodup) :
    missing_payment_positions db = db.positions.filter (unpaid_ref db) := by
  unfold missing_payment_positions
  have hsing : ∀ p : DbPosition,
      ((db.invoices.filter (fun inv => p.ReId == some inv.ReNummer &&
          (inv.Zahlungsdatum.isNone || inv.ZahlungsbetragBrutto.isNone))).map
        (fun _ => p)) = if unpaid_ref db p then [p] else [] := fun p =>
    filter_key_unique db.invoices hn p.ReId
      (fun inv => inv.Zahlungsdatum.isNone || inv.ZahlungsbetragBrutto.isNone) p
  simp only [hsing]
  exact flatMap_if_singleton db.positions (unpaid_ref db)

/-- C8: assuming invoice numbers are unique keys (the table's primary key),
the missing-payment check logs exactly one `missing_payment` audit row per
position whose referenced invoice has a null payment date or a null payment
amount — the join result is exactly the list of such positions — and it
returns the number of rows logged. -/
theorem missing_payment_check_spec (db : QualityDb)
    (hn : (db.invoices.map DbInvoice.ReNummer).Nodup) :
    missing_payment_positions db = db.positions.filter (unpaid_ref db) ∧
    (perform_payment_quality_check db).2 =
      (db.positions.filter (unpaid_ref db)).length ∧
    (perform_payment_quality_check db).1.audit =
      db.audit ++ (db.positions.filter (unpaid_ref db)).map (fun p =>
        AuditRow.mk "Abrechnung_Positionen" p.id "missing_payment"
          "Position linked to invoice without payment data") := by
  have hm := missing_payment_positions_eq db hn
  refine ⟨hm, ?_, ?_⟩
  · simp [perform_payment_quality_check, hm]
  · by_cases hb : db.positions.filter (unpaid_ref db) = [] <;>
      simp [perform_payment_quality_check, insert_bulk_data, hm,
        List.isEmpty_iff, hb]

/-- Witness for C8: one invoice (key 10, no payment date) referenced by one
position — the check returns 1. -/
theorem missing_payment_check_spec_witness :
    (perform_payment_quality_check
      ⟨[DbInvoice.mk 10 none (some 5)], [DbPosition.mk 1 (some 10) none none],
        []⟩).2 = 1 :=
  (missing_payment_check_spec
    ⟨[DbInvoice.mk 10 none (some 5)], [DbPosition.mk 1 (some 10) none none], []⟩
    (by decide)).2.1.trans (by decide)

/-- C9: the summary printer outputs the total-count line followed by
exactly `min top len` issues, the `i`-th printed issue being the `i`-th
issue in the list prefixed with its 1-based rank; for the empty list it
prints only the explicit no-issues message; and the default cap is 10. -/
theorem print_discovered_issues_spec (issues : List String) (top : Nat) :
    (issues = [] → print_discovered_issues issues top =
      ["No issues identified by simple validation."]) ∧
    (issues ≠ [] →
      (print_discovered_issues issues top).length = 1 + min top issues.length ∧
      (print_discovered_issues issues top).head? = some
        s!"Validation identified {issues.length} potential issues, printing top {min top issues.length}:" ∧
      (∀ i : Nat, i < min top issues.length →
        (print_discovered_issues issues top)[i + 1]? =
          some s!"#{i + 1}: {getIssue issues i}")) ∧
    print_discovered_issues_default issues = print_discovered_issues issues 10 := by
  refine ⟨fun he => by simp [print_discovered_issues, he],
    fun hne => ?_, rfl⟩
  have hlen : issues.length ≠ 0 := by
    simpa [List.length_eq_zero] using hne
  refine ⟨?_, ?_, fun i hilt => ?_⟩
  · simp [print_discovered_issues, hlen]
    omega
  · simp [print_discovered_issues, hlen]
  · simp [print_discovered_issues, hlen, List.getElem?_cons_succ,
      List.getElem?_map, List.getElem?_range, hilt]

/-- Witness for C9: a two-issue list with the default cap — header plus two
ranked lines. -/
theorem print_discovered_issues_spec_witness :
    (print_discovered_issues ["a", "b"] 10).length = 1 + min 10 2 ∧
    (print_discovered_issues ["a", "b"] 10)[1]? = some "#1: a" ∧
    print_discovered_issues [] 10 = ["No issues identified by simple validation."] := by
  have h := print_discovered_issues_spec ["a", "b"] 10
  have h0 := print_discovered_issues_spec [] 10
  exact ⟨(h.2.1 (by decide)).1, by
    have := (h.2.1 (by decide)).2.2 0 (by decide)
    simpa [getIssue] using this, h0.1 rfl⟩
